import Mathlib

/-!
Shallow embedding of `src/sputnikdao/src/lib.rs` (SputnikDAO governance
contract) and verification of the spec's claims about it.

Modelling conventions:
* `u64` / `u128` values (balances, durations, timestamps, vote counts) are
  `Nat`; no claim hinges on wrap-around behaviour.
* The host environment (`env::block_timestamp`, `env::predecessor_account_id`,
  `env::attached_deposit`) is passed explicitly as arguments (`now`, `caller`,
  `attached_deposit`).
* Panics and failed `assert!`s abort the whole call with all state rolled
  back; they are modelled by `Except DaoError`, where an `error` result means
  no state change and no emitted effect.
* `Promise::transfer` effects are collected in a returned list of
  `(recipient, amount)` pairs.
* `UnorderedSet<AccountId>` is a `Finset String`; `HashMap<AccountId, Vote>`
  is an association list to which the code only appends keys it has checked
  to be absent.
-/

/-- A council member's vote (`enum Vote`). -/
inductive Vote where
  | Yes : Vote
  | No : Vote
deriving DecidableEq, Repr

/-- `enum NumOrRatio`: a fixed vote count or a fraction of the council. -/
inductive NumOrRatio where
  | Number : Nat → NumOrRatio
  | Ratio : Nat → Nat → NumOrRatio
deriving DecidableEq, Repr

/-- `struct PolicyItem`: how many votes are required for amounts up to `max_amount`. -/
structure PolicyItem where
  max_amount : Nat
  votes : NumOrRatio
deriving DecidableEq, Repr

/-- `PolicyItem::num_votes`. -/
def PolicyItem.num_votes (self : PolicyItem) (num_council : Nat) : Nat :=
  match self.votes with
  | NumOrRatio.Number n => n
  | NumOrRatio.Ratio l r => min (num_council * l / r + 1) num_council

/-- `fn vote_requirement`. The Rust function indexes `policy[policy.len() - 1]`,
which panics on an empty policy; the panic is modelled by `none`. -/
def vote_requirement (policy : List PolicyItem) (num_council : Nat)
    (amount : Option Nat) : Option Nat :=
  match amount with
  | some a =>
    match policy.find? (fun item => decide (item.max_amount > a)) with
    | some item => some (item.num_votes num_council)
    | none => policy.getLast?.map (fun item => item.num_votes num_council)
  | none => policy.getLast?.map (fun item => item.num_votes num_council)

/-- `enum ProposalStatus`. -/
inductive ProposalStatus where
  | Vote : ProposalStatus
  | Success : ProposalStatus
  | Reject : ProposalStatus
  | Fail : ProposalStatus
  | Delay : ProposalStatus
deriving DecidableEq, Repr

/-- `ProposalStatus::is_finalized`: true away from `Vote` and `Delay`. -/
def ProposalStatus.is_finalized (self : ProposalStatus) : Bool :=
  match self with
  | ProposalStatus.Vote => false
  | ProposalStatus.Delay => false
  | _ => true

/-- `enum ProposalKind`. -/
inductive ProposalKind where
  | NewCouncil : ProposalKind
  | RemoveCouncil : ProposalKind
  | Payout : Nat → ProposalKind
  | ChangeVotePeriod : Nat → ProposalKind
  | ChangeBond : Nat → ProposalKind
  | ChangePolicy : List PolicyItem → ProposalKind
  | ChangePurpose : String → ProposalKind
deriving DecidableEq, Repr

/-- `struct Proposal`. -/
structure Proposal where
  status : ProposalStatus
  proposer : String
  target : String
  description : String
  kind : ProposalKind
  vote_period_end : Nat
  vote_yes : Nat
  vote_no : Nat
  votes : List (String × Vote)
deriving DecidableEq, Repr

/-- `Proposal::get_amount`. -/
def Proposal.get_amount (self : Proposal) : Option Nat :=
  match self.kind with
  | ProposalKind.Payout amount => some amount
  | _ => none

/-- `Proposal::vote_status` (the current timestamp is passed as `now`). The
indexing `policy[policy.len() - 1]` panics on an empty policy: `none`. -/
def Proposal.vote_status (self : Proposal) (policy : List PolicyItem)
    (num_council : Nat) (now : Nat) : Option ProposalStatus :=
  match vote_requirement policy num_council self.get_amount, policy.getLast? with
  | some votes_required, some last =>
    some (
      if self.vote_yes ≥ last.num_votes num_council then ProposalStatus.Success
      else if self.vote_yes ≥ votes_required ∧ self.vote_no = 0 then
        (if now > self.vote_period_end then ProposalStatus.Success
         else ProposalStatus.Delay)
      else if self.vote_no ≥ last.num_votes num_council then ProposalStatus.Reject
      else if now > self.vote_period_end ∨ self.vote_yes + self.vote_no = num_council then
        ProposalStatus.Fail
      else ProposalStatus.Vote)
  | _, _ => none

/-- `struct ProposalInput`. -/
structure ProposalInput where
  target : String
  description : String
  kind : ProposalKind
deriving DecidableEq, Repr

/-- The distinguishable abort causes of the contract: each failed `assert!`,
`env::panic` or indexing panic in the source. -/
inductive DaoError where
  | InsufficientDeposit : DaoError
  | DescriptionTooLong : DaoError
  | UnsortedPolicy : DaoError
  | ProposalNotFound : DaoError
  | NotCouncilMember : DaoError
  | AlreadyFinalized : DaoError
  | AlreadyVoted : DaoError
  | FinalizeOpenProposal : DaoError
  | EmptyPolicyPanic : DaoError
deriving DecidableEq, Repr

/-- `struct SputnikDAO`. -/
structure SputnikDAO where
  purpose : String
  bond : Nat
  vote_period : Nat
  grace_period : Nat
  policy : List PolicyItem
  council : Finset String
  proposals : List Proposal
deriving DecidableEq

/-- `SputnikDAO::new`: default single-tier policy `Ratio(1, 2)` and the
founding council inserted one by one. -/
def SputnikDAO.new (purpose : String) (council : List String)
    (bond vote_period grace_period : Nat) : SputnikDAO :=
  { purpose := purpose
    bond := bond
    vote_period := vote_period
    grace_period := grace_period
    policy := [{ max_amount := 0, votes := NumOrRatio.Ratio 1 2 }]
    council := council.foldl (fun acc a => insert a acc) ∅
    proposals := [] }

/-- The pairwise sortedness loop of `add_proposal` over a `ChangePolicy`
payload: `policy[i].max_amount > policy[i-1].max_amount` for every `i ≥ 1`. -/
def policy_sorted_check : List PolicyItem → Bool
  | [] => true
  | [_] => true
  | a :: b :: rest =>
    decide (b.max_amount > a.max_amount) && policy_sorted_check (b :: rest)

/-- The input-verification `match` of `add_proposal`: only `ChangePolicy`
payloads are checked. -/
def kind_check : ProposalKind → Bool
  | ProposalKind.ChangePolicy policy => policy_sorted_check policy
  | _ => true

/-- The fresh `Proposal` record built by `add_proposal`. -/
def new_proposal (proposal : ProposalInput) (caller : String)
    (window_end : Nat) : Proposal :=
  { status := ProposalStatus.Vote
    proposer := caller
    target := proposal.target
    description := proposal.description
    kind := proposal.kind
    vote_period_end := window_end
    vote_yes := 0
    vote_no := 0
    votes := [] }

/-- `SputnikDAO::add_proposal`: deposit check, description-length check
(`description.len() < 280`), policy sortedness check, then push. Returns the
new proposal's index. -/
def SputnikDAO.add_proposal (self : SputnikDAO) (proposal : ProposalInput)
    (caller : String) (attached_deposit now : Nat) :
    Except DaoError (SputnikDAO × Nat) :=
  if attached_deposit < self.bond then Except.error DaoError.InsufficientDeposit
  else if 280 ≤ proposal.description.length then
    Except.error DaoError.DescriptionTooLong
  else if kind_check proposal.kind = false then Except.error DaoError.UnsortedPolicy
  else
    Except.ok
      ({ self with
          proposals :=
            self.proposals ++ [new_proposal proposal caller (now + self.vote_period)] },
        self.proposals.length)

/-- The kind-specific effect applied by `finalize` on `Success` (the `match`
at lines 310-332 of the source, minus the `Payout` transfer). -/
def apply_kind_effect (self : SputnikDAO) (proposal : Proposal) : SputnikDAO :=
  match proposal.kind with
  | ProposalKind.NewCouncil => { self with council := insert proposal.target self.council }
  | ProposalKind.RemoveCouncil => { self with council := self.council.erase proposal.target }
  | ProposalKind.Payout _ => self
  | ProposalKind.ChangeVotePeriod vote_period => { self with vote_period := vote_period }
  | ProposalKind.ChangeBond bond => { self with bond := bond }
  | ProposalKind.ChangePolicy policy => { self with policy := policy }
  | ProposalKind.ChangePurpose purpose => { self with purpose := purpose }

/-- The transfers emitted by `finalize` on `Success`: the bond back to the
proposer, plus the payout to the target for a `Payout` proposal. -/
def success_transfers (self : SputnikDAO) (proposal : Proposal) :
    List (String × Nat) :=
  (proposal.proposer, self.bond) ::
    (match proposal.kind with
     | ProposalKind.Payout amount => [(proposal.target, amount)]
     | _ => [])

/-- `SputnikDAO::finalize`. Recomputes the status, applies the effects of a
terminal status, panics (`FinalizeOpenProposal`) when the recomputed status is
still `Vote`/`Delay`, and stores the updated proposal. -/
def SputnikDAO.finalize (self : SputnikDAO) (id : Nat) (now : Nat) :
    Except DaoError (SputnikDAO × List (String × Nat)) :=
  match self.proposals[id]? with
  | none => Except.error DaoError.ProposalNotFound
  | some proposal =>
    if proposal.status.is_finalized then Except.error DaoError.AlreadyFinalized
    else
      match proposal.vote_status self.policy self.council.card now with
      | none => Except.error DaoError.EmptyPolicyPanic
      | some st =>
        match st with
        | ProposalStatus.Success =>
          Except.ok
            ({ apply_kind_effect self proposal with
                proposals := self.proposals.set id { proposal with status := st } },
              success_transfers self proposal)
        | ProposalStatus.Reject =>
          Except.ok
            ({ self with proposals := self.proposals.set id { proposal with status := st } },
              [])
        | ProposalStatus.Fail =>
          Except.ok
            ({ self with proposals := self.proposals.set id { proposal with status := st } },
              [(proposal.proposer, self.bond)])
        | _ => Except.error DaoError.FinalizeOpenProposal

/-- Lines 280-284 of the source: increment the matching tally and insert the
caller's vote (the caller was checked to be absent from the map). -/
def record_vote (p : Proposal) (caller : String) (v : Vote) : Proposal :=
  match v with
  | Vote.Yes => { p with vote_yes := p.vote_yes + 1, votes := p.votes ++ [(caller, v)] }
  | Vote.No => { p with vote_no := p.vote_no + 1, votes := p.votes ++ [(caller, v)] }

/-- `SputnikDAO::vote`. -/
def SputnikDAO.vote (self : SputnikDAO) (id : Nat) (v : Vote) (caller : String)
    (now : Nat) : Except DaoError (SputnikDAO × List (String × Nat)) :=
  if caller ∉ self.council then Except.error DaoError.NotCouncilMember
  else
    match self.proposals[id]? with
    | none => Except.error DaoError.ProposalNotFound
    | some proposal =>
      if proposal.status ≠ ProposalStatus.Vote then Except.error DaoError.AlreadyFinalized
      else if proposal.vote_period_end < now then self.finalize id now
      else if caller ∈ proposal.votes.map Prod.fst then Except.error DaoError.AlreadyVoted
      else
        match (record_vote proposal caller v).vote_status self.policy self.council.card now with
        | none => Except.error DaoError.EmptyPolicyPanic
        | some post_status =>
          if post_status.is_finalized then
            { self with
                proposals := self.proposals.set id (record_vote proposal caller v) }.finalize
              id now
          else
            Except.ok
              ({ self with
                  proposals := self.proposals.set id
                    { record_vote proposal caller v with
                        vote_period_end := now + self.grace_period
                        status := post_status } },
                [])

/-! ## Claim C1: `vote_status` follows the ordered rules of spec §4.2 -/

/-- Modelled from the spec §4.1, for the refinement statement of C1:
`required_votes(policy, council_size, amount)` with a non-empty policy. -/
def required_votes_spec (policy : List PolicyItem) (h : policy ≠ [])
    (council_size : Nat) (amount : Option Nat) : Nat :=
  match amount with
  | some a =>
    match policy.find? (fun item => decide (item.max_amount > a)) with
    | some item => item.num_votes council_size
    | none => (policy.getLast h).num_votes council_size
  | none => (policy.getLast h).num_votes council_size

/-- Modelled from the spec §4.2, for the refinement statement of C1: the
ordered status rules, with `required` and `unanimous` precomputed. -/
def compute_status_spec (required unanimous yes no council_size now window_end : Nat) :
    ProposalStatus :=
  if yes ≥ unanimous then ProposalStatus.Success
  else if yes ≥ required ∧ no = 0 then
    (if now > window_end then ProposalStatus.Success else ProposalStatus.Delay)
  else if no ≥ unanimous then ProposalStatus.Reject
  else if now > window_end ∨ yes + no = council_size then ProposalStatus.Fail
  else ProposalStatus.Vote

/-- C1: for every proposal, non-empty policy, council size and current time,
`Proposal.vote_status` returns exactly the status prescribed by the ordered
rules of spec §4.2, with `required = required_votes(policy, n, amount)` and
the unanimity cutoff `num_votes` of the last policy tier. -/
theorem vote_status_follows_spec (p : Proposal) (policy : List PolicyItem)
    (n now : Nat) (h : policy ≠ []) :
    p.vote_status policy n now =
      some (compute_status_spec (required_votes_spec policy h n p.get_amount)
        ((policy.getLast h).num_votes n) p.vote_yes p.vote_no n now
        p.vote_period_end) := by
  have hlast := List.getLast?_eq_getLast_of_ne_nil h
  cases ha : p.get_amount with
  | none =>
    simp [Proposal.vote_status, vote_requirement, required_votes_spec, ha, hlast,
      compute_status_spec]
  | some a =>
    cases hf : policy.find? (fun item => decide (item.max_amount > a)) with
    | none =>
      simp [Proposal.vote_status, vote_requirement, required_votes_spec, ha, hf,
        hlast, compute_status_spec]
    | some t =>
      simp [Proposal.vote_status, vote_requirement, required_votes_spec, ha, hf,
        hlast, compute_status_spec]

def c1Policy : List PolicyItem :=
  [⟨100, NumOrRatio.Number 1⟩, ⟨1000000, NumOrRatio.Ratio 1 1⟩]

theorem c1Policy_ne : c1Policy ≠ [] := by decide

def c1Proposal : Proposal :=
  { status := ProposalStatus.Vote, proposer := "x", target := "y"
    description := "d", kind := ProposalKind.Payout 10, vote_period_end := 1000
    vote_yes := 1, vote_no := 0, votes := [("a", Vote.Yes)] }

/-- Witness for C1 at a concrete proposal, policy, council size and time. -/
theorem vote_status_follows_spec_witness :
    c1Proposal.vote_status c1Policy 2 0 =
      some (compute_status_spec
        (required_votes_spec c1Policy c1Policy_ne 2 c1Proposal.get_amount)
        ((c1Policy.getLast c1Policy_ne).num_votes 2) c1Proposal.vote_yes
        c1Proposal.vote_no 2 0 c1Proposal.vote_period_end) :=
  vote_status_follows_spec c1Proposal c1Policy 2 0 c1Policy_ne

/-! ## Claim C2: the required-votes lookup and the per-tier vote rules -/

/-- C2: the required-votes lookup returns `num_votes` of the first tier whose
`max_amount` strictly exceeds a present amount, and `num_votes` of the last
tier otherwise (no qualifying tier, or the amount absent); a `Number m` tier
yields `m`; a `Ratio l r` tier yields `min (n * l / r + 1) n` with floor
division, hence never more than `n`. -/
theorem vote_requirement_cases :
    (∀ (policy : List PolicyItem) (n a : Nat) (t : PolicyItem),
      policy.find? (fun item => decide (item.max_amount > a)) = some t →
      vote_requirement policy n (some a) = some (t.num_votes n)) ∧
    (∀ (policy : List PolicyItem) (n a : Nat) (h : policy ≠ []),
      policy.find? (fun item => decide (item.max_amount > a)) = none →
      vote_requirement policy n (some a) = some ((policy.getLast h).num_votes n)) ∧
    (∀ (policy : List PolicyItem) (n : Nat) (h : policy ≠ []),
      vote_requirement policy n none = some ((policy.getLast h).num_votes n)) ∧
    (∀ (ma m n : Nat), (PolicyItem.mk ma (NumOrRatio.Number m)).num_votes n = m) ∧
    (∀ (ma l r n : Nat),
      (PolicyItem.mk ma (NumOrRatio.Ratio l r)).num_votes n = min (n * l / r + 1) n) ∧
    (∀ (ma l r n : Nat), (PolicyItem.mk ma (NumOrRatio.Ratio l r)).num_votes n ≤ n) := by
  refine ⟨?_, ?_, ?_, ?_, ?_, ?_⟩
  · intro policy n a t hf
    simp [vote_requirement, hf]
  · intro policy n a h hf
    simp [vote_requirement, hf, List.getLast?_eq_getLast_of_ne_nil h]
  · intro policy n h
    simp [vote_requirement, List.getLast?_eq_getLast_of_ne_nil h]
  · intro ma m n
    simp [PolicyItem.num_votes]
  · intro ma l r n
    simp [PolicyItem.num_votes]
  · intro ma l r n
    simp [PolicyItem.num_votes]

/-- Witness for C2: the lookup and both vote rules evaluated at concrete
inputs (the first qualifying tier for amount 10, the last tier for amount
2000000 and for an absent amount, and the two rule shapes). -/
theorem vote_requirement_cases_witness :
    vote_requirement c1Policy 2 (some 10) =
      some ((PolicyItem.mk 100 (NumOrRatio.Number 1)).num_votes 2) ∧
    vote_requirement c1Policy 2 (some 2000000) =
      some ((c1Policy.getLast c1Policy_ne).num_votes 2) ∧
    vote_requirement c1Policy 2 none =
      some ((c1Policy.getLast c1Policy_ne).num_votes 2) ∧
    (PolicyItem.mk 100 (NumOrRatio.Number 1)).num_votes 2 = 1 ∧
    (PolicyItem.mk 1000000 (NumOrRatio.Ratio 1 1)).num_votes 2 = min (2 * 1 / 1 + 1) 2 ∧
    (PolicyItem.mk 1000000 (NumOrRatio.Ratio 1 1)).num_votes 2 ≤ 2 :=
  ⟨vote_requirement_cases.1 c1Policy 2 10 (PolicyItem.mk 100 (NumOrRatio.Number 1))
      (by decide),
    vote_requirement_cases.2.1 c1Policy 2 2000000 c1Policy_ne (by decide),
    vote_requirement_cases.2.2.1 c1Policy 2 c1Policy_ne,
    vote_requirement_cases.2.2.2.1 100 1 2,
    vote_requirement_cases.2.2.2.2.1 1000000 1 1 2,
    vote_requirement_cases.2.2.2.2.2 1000000 1 1 2⟩

deriving instance DecidableEq for Except

/-! ## Claim C5: finalize on an already-finalized proposal -/

/-- C5: calling `finalize` on a proposal whose status is already terminal
fails with the `AlreadyFinalized` error; since an aborted call returns no new
state and no transfer list, nothing is re-applied and the store is
unchanged. -/
theorem finalize_already_finalized (s : SputnikDAO) (id now : Nat) (p : Proposal)
    (h1 : s.proposals[id]? = some p) (h2 : p.status.is_finalized = true) :
    s.finalize id now = Except.error DaoError.AlreadyFinalized := by
  simp [SputnikDAO.finalize, h1, h2]

def c5State : SputnikDAO :=
  { purpose := "t", bond := 5, vote_period := 1000, grace_period := 10
    policy := [{ max_amount := 0, votes := NumOrRatio.Ratio 1 2 }]
    council := {"a", "b"}
    proposals := [{ status := ProposalStatus.Success, proposer := "x", target := "y"
                    description := "d", kind := ProposalKind.NewCouncil
                    vote_period_end := 10, vote_yes := 2, vote_no := 0
                    votes := [("a", Vote.Yes), ("b", Vote.Yes)] }] }

/-- Witness for C5: a store holding one `Success` proposal rejects a second
finalization. -/
theorem finalize_already_finalized_witness :
    c5State.finalize 0 77 = Except.error DaoError.AlreadyFinalized :=
  finalize_already_finalized c5State 0 77
    { status := ProposalStatus.Success, proposer := "x", target := "y"
      description := "d", kind := ProposalKind.NewCouncil
      vote_period_end := 10, vote_yes := 2, vote_no := 0
      votes := [("a", Vote.Yes), ("b", Vote.Yes)] } (by decide) (by decide)

/-! ## Claim C8: unsorted policy-change payloads are rejected -/

/-- The sortedness loop of `add_proposal` accepts exactly the tier lists whose
`max_amount`s are strictly increasing across consecutive entries. -/
theorem policy_sorted_check_iff (l : List PolicyItem) :
    policy_sorted_check l = true ↔
      List.Chain' (fun a b : PolicyItem => a.max_amount < b.max_amount) l := by
  induction l with
  | nil => simp [policy_sorted_check]
  | cons a t ih =>
    cases t with
    | nil => simp [policy_sorted_check]
    | cons b r =>
      rw [policy_sorted_check, List.chain'_cons, ← ih]
      simp [gt_iff_lt, and_comm]

/-- C8: a `ChangePolicy` submission whose tier list is not strictly increasing
in `max_amount` across consecutive entries fails with the unsorted-policy
error (given that the earlier deposit and description checks pass), and an
aborted call appends no proposal and changes no store field. -/
theorem add_proposal_unsorted_policy (s : SputnikDAO) (inp : ProposalInput)
    (caller : String) (dep now : Nat) (pol : List PolicyItem)
    (h1 : s.bond ≤ dep) (h2 : inp.description.length < 280)
    (h3 : inp.kind = ProposalKind.ChangePolicy pol)
    (h4 : ¬ List.Chain' (fun a b : PolicyItem => a.max_amount < b.max_amount) pol) :
    s.add_proposal inp caller dep now = Except.error DaoError.UnsortedPolicy := by
  have hs : policy_sorted_check pol = false := by
    cases hcheck : policy_sorted_check pol
    · rfl
    · exact absurd ((policy_sorted_check_iff pol).1 hcheck) h4
  simp [SputnikDAO.add_proposal, Nat.not_lt.2 h1, Nat.not_le.2 h2, kind_check, h3, hs]

def c8State : SputnikDAO := SputnikDAO.new "t" ["a", "b"] 10 1000 10

def c8Policy : List PolicyItem :=
  [{ max_amount := 100, votes := NumOrRatio.Number 5 },
   { max_amount := 5, votes := NumOrRatio.Number 3 }]

/-- Witness for C8 (spec scenario D): tiers with decreasing `max_amount`
(100 then 5) are rejected with the unsorted-policy error. -/
theorem add_proposal_unsorted_policy_witness :
    c8State.add_proposal ⟨"t", "policy", ProposalKind.ChangePolicy c8Policy⟩ "x" 10 0 =
      Except.error DaoError.UnsortedPolicy :=
  add_proposal_unsorted_policy c8State
    ⟨"t", "policy", ProposalKind.ChangePolicy c8Policy⟩ "x" 10 0 c8Policy
    (by decide) (by decide) rfl
    (fun hc => absurd ((policy_sorted_check_iff c8Policy).2 hc) (by decide))

/-! ## Claim C6: the description-length boundary -/

def c6State : SputnikDAO := SputnikDAO.new "t" ["a"] 0 1000 10

def c6LongDescription : String := String.mk (List.replicate 280 'a')

set_option maxRecDepth 4000 in
/-- Counterexample to C6 as stated: a description of exactly 280 characters
(which the claim says must be accepted) is rejected — the code checks
`description.len() < 280`, so 280 is already too long. -/
theorem add_proposal_280_rejected :
    c6LongDescription.length = 280 ∧
    c6State.add_proposal ⟨"t", c6LongDescription, ProposalKind.NewCouncil⟩ "x" 0 0 =
      Except.error DaoError.DescriptionTooLong := by
  constructor
  · rfl
  · rfl

/-- C6 (amended): with sufficient deposit, a valid kind payload and a
description of fewer than 280 characters the submission is accepted and the
new proposal appended; a description of 280 characters or more is rejected
with the description-too-long error before any state is written. -/
theorem add_proposal_description_boundary :
    (∀ (s : SputnikDAO) (inp : ProposalInput) (caller : String) (dep now : Nat),
      s.bond ≤ dep → kind_check inp.kind = true → inp.description.length < 280 →
      s.add_proposal inp caller dep now =
        Except.ok
          ({ s with
              proposals := s.proposals ++ [new_proposal inp caller (now + s.vote_period)] },
            s.proposals.length)) ∧
    (∀ (s : SputnikDAO) (inp : ProposalInput) (caller : String) (dep now : Nat),
      s.bond ≤ dep → 280 ≤ inp.description.length →
      s.add_proposal inp caller dep now = Except.error DaoError.DescriptionTooLong) := by
  constructor
  · intro s inp caller dep now h1 h2 h3
    simp [SputnikDAO.add_proposal, Nat.not_lt.2 h1, Nat.not_le.2 h3, h2]
  · intro s inp caller dep now h1 h2
    simp [SputnikDAO.add_proposal, Nat.not_lt.2 h1, h2]

set_option maxRecDepth 4000 in
/-- Witness for the amended C6: a 279-character description is accepted, a
280-character one rejected, at concrete store states. -/
theorem add_proposal_description_boundary_witness :
    (c6State.add_proposal ⟨"t", String.mk (List.replicate 279 'a'), ProposalKind.NewCouncil⟩
        "x" 0 0 =
      Except.ok
        ({ c6State with
            proposals := c6State.proposals ++
              [new_proposal ⟨"t", String.mk (List.replicate 279 'a'), ProposalKind.NewCouncil⟩
                "x" (0 + c6State.vote_period)] },
          c6State.proposals.length)) ∧
    c6State.add_proposal ⟨"t", c6LongDescription, ProposalKind.NewCouncil⟩ "x" 0 0 =
      Except.error DaoError.DescriptionTooLong :=
  ⟨add_proposal_description_boundary.1 c6State
      ⟨"t", String.mk (List.replicate 279 'a'), ProposalKind.NewCouncil⟩ "x" 0 0
      (by decide) (by decide) (by decide),
    add_proposal_description_boundary.2 c6State
      ⟨"t", c6LongDescription, ProposalKind.NewCouncil⟩ "x" 0 0 (by decide) (by decide)⟩

/-! ## Elimination lemmas: what a successful operation did -/

/-- A successful `add_proposal` appended exactly the fresh proposal and
returned its index; every other field is unchanged. -/
theorem add_ok_elim {s s' : SputnikDAO} {inp : ProposalInput} {caller : String}
    {dep now i : Nat}
    (h : s.add_proposal inp caller dep now = Except.ok (s', i)) :
    s' = { s with
            proposals := s.proposals ++ [new_proposal inp caller (now + s.vote_period)] } ∧
    i = s.proposals.length := by
  unfold SputnikDAO.add_proposal at h
  split at h
  · simp at h
  · split at h
    · simp at h
    · split at h
      · simp at h
      · rw [Except.ok.injEq, Prod.mk.injEq] at h
        exact ⟨h.1.symm, h.2.symm⟩

/-- A successful `finalize` found a non-finalized proposal, recomputed a
terminal status for it, stored it, and emitted exactly the effects of that
status. -/
theorem finalize_ok_elim {s s' : SputnikDAO} {id now : Nat}
    {eff : List (String × Nat)}
    (h : s.finalize id now = Except.ok (s', eff)) :
    ∃ p st, s.proposals[id]? = some p ∧ p.status.is_finalized = false ∧
      p.vote_status s.policy s.council.card now = some st ∧
      st.is_finalized = true ∧
      s'.proposals = s.proposals.set id { p with status := st } ∧
      ((st = ProposalStatus.Success ∧
          s' = { apply_kind_effect s p with
                  proposals := s.proposals.set id { p with status := st } } ∧
          eff = success_transfers s p) ∨
        (st = ProposalStatus.Reject ∧
          s' = { s with proposals := s.proposals.set id { p with status := st } } ∧
          eff = []) ∨
        (st = ProposalStatus.Fail ∧
          s' = { s with proposals := s.proposals.set id { p with status := st } } ∧
          eff = [(p.proposer, s.bond)])) := by
  unfold SputnikDAO.finalize at h
  cases hp : s.proposals[id]? with
  | none => rw [hp] at h; simp at h
  | some p =>
    rw [hp] at h
    cases hf : p.status.is_finalized with
    | true => simp [hf] at h
    | false =>
      simp only [hf, Bool.false_eq_true, if_false] at h
      cases hst : p.vote_status s.policy s.council.card now with
      | none => rw [hst] at h; simp at h
      | some st =>
        rw [hst] at h
        cases st with
        | Vote => simp at h
        | Delay => simp at h
        | Success =>
          rw [Except.ok.injEq, Prod.mk.injEq] at h
          refine ⟨p, ProposalStatus.Success, rfl, hf, hst, rfl, ?_, ?_⟩
          · rw [← h.1]
          · exact Or.inl ⟨rfl, h.1.symm, h.2.symm⟩
        | Reject =>
          rw [Except.ok.injEq, Prod.mk.injEq] at h
          refine ⟨p, ProposalStatus.Reject, rfl, hf, hst, rfl, ?_, ?_⟩
          · rw [← h.1]
          · exact Or.inr (Or.inl ⟨rfl, h.1.symm, h.2.symm⟩)
        | Fail =>
          rw [Except.ok.injEq, Prod.mk.injEq] at h
          refine ⟨p, ProposalStatus.Fail, rfl, hf, hst, rfl, ?_, ?_⟩
          · rw [← h.1]
          · exact Or.inr (Or.inr ⟨rfl, h.1.symm, h.2.symm⟩)

/-- A successful `vote` either forwarded an expired proposal to `finalize`
without recording anything, or recorded the caller's vote and then either
stored the still-open proposal with a refreshed window or finalized it. -/
theorem vote_ok_elim {s s' : SputnikDAO} {id : Nat} {v : Vote} {caller : String}
    {now : Nat} {eff : List (String × Nat)}
    (h : s.vote id v caller now = Except.ok (s', eff)) :
    (∃ p, s.proposals[id]? = some p ∧ caller ∈ s.council ∧
      p.status = ProposalStatus.Vote ∧ p.vote_period_end < now ∧
      s.finalize id now = Except.ok (s', eff)) ∨
    (∃ p st, s.proposals[id]? = some p ∧ caller ∈ s.council ∧
      p.status = ProposalStatus.Vote ∧ ¬ p.vote_period_end < now ∧
      caller ∉ p.votes.map Prod.fst ∧
      (record_vote p caller v).vote_status s.policy s.council.card now = some st ∧
      ((st.is_finalized = false ∧ eff = [] ∧
          s' = { s with
                  proposals := s.proposals.set id
                    { record_vote p caller v with
                        vote_period_end := now + s.grace_period, status := st } }) ∨
        (st.is_finalized = true ∧
          SputnikDAO.finalize
            { s with proposals := s.proposals.set id (record_vote p caller v) } id now =
            Except.ok (s', eff)))) := by
  unfold SputnikDAO.vote at h
  by_cases hmem : caller ∈ s.council
  · rw [if_neg (not_not_intro hmem)] at h
    cases hp : s.proposals[id]? with
    | none => rw [hp] at h; exact absurd h (by simp)
    | some p =>
      rw [hp] at h
      dsimp only at h
      by_cases hstat : p.status = ProposalStatus.Vote
      · rw [if_neg (not_not_intro hstat)] at h
        by_cases hexp : p.vote_period_end < now
        · rw [if_pos hexp] at h
          exact Or.inl ⟨p, rfl, hmem, hstat, hexp, h⟩
        · rw [if_neg hexp] at h
          by_cases hvoted : caller ∈ p.votes.map Prod.fst
          · rw [if_pos hvoted] at h
            exact absurd h (by simp)
          · rw [if_neg hvoted] at h
            cases hst : (record_vote p caller v).vote_status s.policy s.council.card now with
            | none => rw [hst] at h; exact absurd h (by simp)
            | some st =>
              rw [hst] at h
              dsimp only at h
              cases hfin : st.is_finalized with
              | true =>
                rw [if_pos hfin] at h
                exact Or.inr ⟨p, st, rfl, hmem, hstat, hexp, hvoted, hst,
                  Or.inr ⟨hfin, h⟩⟩
              | false =>
                rw [if_neg (by simp [hfin])] at h
                rw [Except.ok.injEq, Prod.mk.injEq] at h
                exact Or.inr ⟨p, st, rfl, hmem, hstat, hexp, hvoted, hst,
                  Or.inl ⟨hfin, h.2.symm, h.1.symm⟩⟩
      · rw [if_pos hstat] at h
        exact absurd h (by simp)
  · rw [if_pos hmem] at h
    exact absurd h (by simp)

/-- Extract the resulting store from a `vote`/`finalize` result (junk initial
store on error; used only on calls known to succeed). -/
def exState (r : Except DaoError (SputnikDAO × List (String × Nat))) : SputnikDAO :=
  match r with
  | Except.ok (s, _) => s
  | Except.error _ => SputnikDAO.new "" [] 0 0 0

/-- Extract the resulting store from an `add_proposal` result. -/
def exStateAdd (r : Except DaoError (SputnikDAO × Nat)) : SputnikDAO :=
  match r with
  | Except.ok (s, _) => s
  | Except.error _ => SputnikDAO.new "" [] 0 0 0

/-! ## Claim C4: persistence of the recomputed status -/

def c4State : SputnikDAO :=
  { purpose := "t", bond := 7, vote_period := 1000, grace_period := 10
    policy := [{ max_amount := 0, votes := NumOrRatio.Ratio 1 2 }]
    council := {"a", "b"}
    proposals := [{ status := ProposalStatus.Vote, proposer := "x", target := "y"
                    description := "d", kind := ProposalKind.NewCouncil
                    vote_period_end := 1000, vote_yes := 0, vote_no := 0
                    votes := [] }] }

/-- Counterexample to C4 as stated: `finalize` on a non-finalized proposal
whose recomputed status is still `Vote` does not persist anything — it aborts
with the `env::panic` of the `Vote | Delay` arm, which precedes the
`proposals.replace` call, so the claimed unconditional persistence fails. -/
theorem finalize_open_aborts_unpersisted :
    (c4State.proposals[0]?).map (fun p => p.status.is_finalized) = some false ∧
    c4State.finalize 0 0 = Except.error DaoError.FinalizeOpenProposal := by
  constructor
  · rfl
  · rfl

/-- C4 (amended): the recomputed status is persisted exactly when `finalize`
completes, i.e. when that status is terminal; when the recomputed status is
still `Vote` or `Delay` the call aborts with the open-proposal panic and
persists nothing. -/
theorem finalize_persistence_boundary :
    (∀ (s s' : SputnikDAO) (id now : Nat) (eff : List (String × Nat)),
      s.finalize id now = Except.ok (s', eff) →
      ∃ p st, s.proposals[id]? = some p ∧
        p.vote_status s.policy s.council.card now = some st ∧
        st.is_finalized = true ∧
        s'.proposals = s.proposals.set id { p with status := st }) ∧
    (∀ (s : SputnikDAO) (id now : Nat) (p : Proposal) (st : ProposalStatus),
      s.proposals[id]? = some p → p.status.is_finalized = false →
      p.vote_status s.policy s.council.card now = some st → st.is_finalized = false →
      s.finalize id now = Except.error DaoError.FinalizeOpenProposal) := by
  constructor
  · intro s s' id now eff h
    obtain ⟨p, st, hp, _, hst, hterm, hset, _⟩ := finalize_ok_elim h
    exact ⟨p, st, hp, hst, hterm, hset⟩
  · intro s id now p st hp hopen hst hnf
    unfold SputnikDAO.finalize
    rw [hp]
    dsimp only
    rw [if_neg (by simp [hopen]), hst]
    dsimp only
    cases st with
    | Vote => rfl
    | Delay => rfl
    | Success => simp [ProposalStatus.is_finalized] at hnf
    | Reject => simp [ProposalStatus.is_finalized] at hnf
    | Fail => simp [ProposalStatus.is_finalized] at hnf

/-- Witness for the amended C4: finalizing the same store after the window
elapsed persists the recomputed `Fail` status, while finalizing it early
aborts with the open-proposal panic. -/
theorem finalize_persistence_boundary_witness :
    (∃ p st, c4State.proposals[0]? = some p ∧
      p.vote_status c4State.policy c4State.council.card 1001 = some st ∧
      st.is_finalized = true ∧
      (exState (c4State.finalize 0 1001)).proposals =
        c4State.proposals.set 0 { p with status := st }) ∧
    c4State.finalize 0 0 = Except.error DaoError.FinalizeOpenProposal :=
  ⟨finalize_persistence_boundary.1 c4State (exState (c4State.finalize 0 1001)) 0 1001
      [("x", 7)] (by decide),
    finalize_persistence_boundary.2 c4State 0 0
      { status := ProposalStatus.Vote, proposer := "x", target := "y"
        description := "d", kind := ProposalKind.NewCouncil
        vote_period_end := 1000, vote_yes := 0, vote_no := 0, votes := [] }
      ProposalStatus.Vote (by decide) (by decide) (by decide) (by decide)⟩

/-! ## Claim C3: bond return and kind-specific effects at finalization -/

/-- C3: in every successful `finalize`, a resulting `Success` or `Fail`
transfers the bond back to the proposer, a resulting `Reject` emits no
transfer at all (the bond is forfeited), and only a `Success` applies the
kind-specific effect — council insert/erase, payout transfer to the target,
or the parameter-field overwrite. -/
theorem finalize_bond_and_effects (s s' : SputnikDAO) (id now : Nat)
    (eff : List (String × Nat)) (h : s.finalize id now = Except.ok (s', eff)) :
    ∃ p st, s.proposals[id]? = some p ∧
      p.vote_status s.policy s.council.card now = some st ∧
      ((st = ProposalStatus.Success ∨ st = ProposalStatus.Fail) →
        (p.proposer, s.bond) ∈ eff) ∧
      (st = ProposalStatus.Reject → eff = []) ∧
      (st ≠ ProposalStatus.Success →
        s'.council = s.council ∧ s'.policy = s.policy ∧ s'.bond = s.bond ∧
        s'.vote_period = s.vote_period ∧ s'.grace_period = s.grace_period ∧
        s'.purpose = s.purpose ∧ ∀ t ∈ eff, t = (p.proposer, s.bond)) ∧
      (st = ProposalStatus.Success →
        eff = (p.proposer, s.bond) ::
          (match p.kind with
            | ProposalKind.Payout amount => [(p.target, amount)]
            | _ => []) ∧
        s'.council = (match p.kind with
          | ProposalKind.NewCouncil => insert p.target s.council
          | ProposalKind.RemoveCouncil => s.council.erase p.target
          | _ => s.council) ∧
        s'.policy = (match p.kind with
          | ProposalKind.ChangePolicy pol => pol
          | _ => s.policy) ∧
        s'.bond = (match p.kind with
          | ProposalKind.ChangeBond b => b
          | _ => s.bond) ∧
        s'.vote_period = (match p.kind with
          | ProposalKind.ChangeVotePeriod vp => vp
          | _ => s.vote_period) ∧
        s'.purpose = (match p.kind with
          | ProposalKind.ChangePurpose pu => pu
          | _ => s.purpose)) := by
  obtain ⟨p, st, hp, _, hst, _, _, hcases⟩ := finalize_ok_elim h
  refine ⟨p, st, hp, hst, ?_, ?_, ?_, ?_⟩
  · rcases hcases with ⟨_, _, heff⟩ | ⟨hrej, _, _⟩ | ⟨_, _, heff⟩
    · intro _; rw [heff]; exact List.mem_cons_self _ _
    · subst hrej; rintro (hc | hc) <;> cases hc
    · intro _; rw [heff]; exact List.mem_cons_self _ _
  · rcases hcases with ⟨hsu, _, _⟩ | ⟨_, _, heff⟩ | ⟨hfa, _, _⟩
    · subst hsu; intro hc; cases hc
    · intro _; exact heff
    · subst hfa; intro hc; cases hc
  · rcases hcases with ⟨hsu, _, _⟩ | ⟨_, hs', heff⟩ | ⟨_, hs', heff⟩
    · subst hsu; intro hc; exact absurd rfl hc
    · intro _; subst hs'; subst heff
      exact ⟨rfl, rfl, rfl, rfl, rfl, rfl, by simp⟩
    · intro _; subst hs'; subst heff
      refine ⟨rfl, rfl, rfl, rfl, rfl, rfl, ?_⟩
      intro t ht
      simpa using ht
  · rcases hcases with ⟨hsu, hs', heff⟩ | ⟨hrej, _, _⟩ | ⟨hfa, _, _⟩
    · intro _; subst hs'; subst heff; subst hsu
      cases hk : p.kind <;>
        simp [success_transfers, apply_kind_effect, hk]
    · subst hrej; intro hc; cases hc
    · subst hfa; intro hc; cases hc

def c3State : SputnikDAO :=
  { purpose := "t", bond := 7, vote_period := 1000, grace_period := 10
    policy := [{ max_amount := 0, votes := NumOrRatio.Number 1 }]
    council := {"a", "b"}
    proposals := [{ status := ProposalStatus.Vote, proposer := "x", target := "y"
                    description := "d", kind := ProposalKind.Payout 10
                    vote_period_end := 10, vote_yes := 1, vote_no := 0
                    votes := [("a", Vote.Yes)] }] }

/-- Witness for C3: a payout proposal finalized as `Success` at a concrete
store — the conclusion is obtained by applying the theorem to the concrete
successful call. -/
theorem finalize_bond_and_effects_witness :
    ∃ p st, c3State.proposals[0]? = some p ∧
      p.vote_status c3State.policy c3State.council.card 0 = some st ∧
      ((st = ProposalStatus.Success ∨ st = ProposalStatus.Fail) →
        (p.proposer, c3State.bond) ∈ [("x", 7), ("y", 10)]) ∧
      (st = ProposalStatus.Reject → [("x", 7), ("y", 10)] = []) ∧
      (st ≠ ProposalStatus.Success →
        (exState (c3State.finalize 0 0)).council = c3State.council ∧
        (exState (c3State.finalize 0 0)).policy = c3State.policy ∧
        (exState (c3State.finalize 0 0)).bond = c3State.bond ∧
        (exState (c3State.finalize 0 0)).vote_period = c3State.vote_period ∧
        (exState (c3State.finalize 0 0)).grace_period = c3State.grace_period ∧
        (exState (c3State.finalize 0 0)).purpose = c3State.purpose ∧
        ∀ t ∈ [("x", 7), ("y", 10)], t = (p.proposer, c3State.bond)) ∧
      (st = ProposalStatus.Success →
        [("x", 7), ("y", 10)] = (p.proposer, c3State.bond) ::
          (match p.kind with
            | ProposalKind.Payout amount => [(p.target, amount)]
            | _ => []) ∧
        (exState (c3State.finalize 0 0)).council = (match p.kind with
          | ProposalKind.NewCouncil => insert p.target c3State.council
          | ProposalKind.RemoveCouncil => c3State.council.erase p.target
          | _ => c3State.council) ∧
        (exState (c3State.finalize 0 0)).policy = (match p.kind with
          | ProposalKind.ChangePolicy pol => pol
          | _ => c3State.policy) ∧
        (exState (c3State.finalize 0 0)).bond = (match p.kind with
          | ProposalKind.ChangeBond b => b
          | _ => c3State.bond) ∧
        (exState (c3State.finalize 0 0)).vote_period = (match p.kind with
          | ProposalKind.ChangeVotePeriod vp => vp
          | _ => c3State.vote_period) ∧
        (exState (c3State.finalize 0 0)).purpose = (match p.kind with
          | ProposalKind.ChangePurpose pu => pu
          | _ => c3State.purpose)) :=
  finalize_bond_and_effects c3State (exState (c3State.finalize 0 0)) 0 0
    [("x", 7), ("y", 10)] (by decide)

/-! ## Claim C9: every recorded vote with a non-terminal result resets the window -/

/-- C9: whenever a vote is actually recorded (the proposal exists and its
window has not expired) and the recomputed status is non-terminal (`Vote` or
`Delay`), the stored proposal carries `vote_window_end = now + grace_period`
and the recomputed status — the window is reset to the grace period even when
the status stays `Vote`. -/
theorem vote_nonterminal_resets_window (s s' : SputnikDAO) (id : Nat) (v : Vote)
    (caller : String) (now : Nat) (eff : List (String × Nat)) (p : Proposal)
    (st : ProposalStatus)
    (hp : s.proposals[id]? = some p)
    (hexp : ¬ p.vote_period_end < now)
    (hst : (record_vote p caller v).vote_status s.policy s.council.card now = some st)
    (hnf : st.is_finalized = false)
    (hok : s.vote id v caller now = Except.ok (s', eff)) :
    s'.proposals[id]? =
      some { record_vote p caller v with
              vote_period_end := now + s.grace_period, status := st } := by
  rcases vote_ok_elim hok with ⟨q, hq, _, _, hqexp, _⟩ | ⟨q, st', hq, _, _, _, _, hst', hcase⟩
  · rw [hp] at hq
    cases hq
    exact absurd hqexp hexp
  · rw [hp] at hq
    cases hq
    rw [hst] at hst'
    cases hst'
    rcases hcase with ⟨_, _, hs'⟩ | ⟨hterm, _⟩
    · subst hs'
      have hlt : id < s.proposals.length := by
        rcases List.getElem?_eq_some_iff.1 hp with ⟨hl, _⟩
        exact hl
      simp [List.getElem?_set_self', hlt]
    · rw [hterm] at hnf
      cases hnf

def c9State : SputnikDAO := SputnikDAO.new "t" ["a", "b"] 0 1000 10

def c9StateWith : SputnikDAO :=
  exStateAdd (c9State.add_proposal ⟨"z", "d", ProposalKind.NewCouncil⟩ "x" 0 0)

/-- Witness for C9: the first Yes vote of a two-member council leaves the
status at `Vote` (one vote short of the default-policy quorum) and still
resets the stored window to `now + grace_period`. -/
theorem vote_nonterminal_resets_window_witness :
    (exState (c9StateWith.vote 0 Vote.Yes "a" 5)).proposals[0]? =
      some { record_vote (new_proposal ⟨"z", "d", ProposalKind.NewCouncil⟩ "x" 1000)
              "a" Vote.Yes with
              vote_period_end := 5 + c9StateWith.grace_period
              status := ProposalStatus.Vote } :=
  vote_nonterminal_resets_window c9StateWith (exState (c9StateWith.vote 0 Vote.Yes "a" 5))
    0 Vote.Yes "a" 5 []
    (new_proposal ⟨"z", "d", ProposalKind.NewCouncil⟩ "x" 1000) ProposalStatus.Vote
    (by decide) (by decide) (by decide) (by decide) (by decide)

/-! ## Claim C10: the empty policy-change payload poisons the store -/

/-- With an empty policy table, `vote_status` always hits the
`policy[policy.len() - 1]` panic. -/
theorem vote_status_empty_policy (p : Proposal) (n now : Nat) :
    p.vote_status [] n now = none := by
  cases ha : p.get_amount <;> simp [Proposal.vote_status, vote_requirement, ha]

/-- C10: `add_proposal` accepts a `ChangePolicy` payload with an empty tier
list (the pairwise check is vacuous); finalizing such a proposal as `Success`
installs the empty policy; and once the store's policy is empty, any
`finalize` of a non-finalized proposal and any `vote` that reaches the tally
step abort with the `policy[policy.len() - 1]` indexing panic — the spec's
non-empty-policy precondition is enforced only at initialization. -/
theorem empty_policy_change_poisons_store :
    (∀ (s : SputnikDAO) (target descr caller : String) (dep now : Nat),
      s.bond ≤ dep → descr.length < 280 →
      s.add_proposal ⟨target, descr, ProposalKind.ChangePolicy []⟩ caller dep now =
        Except.ok
          ({ s with
              proposals := s.proposals ++
                [new_proposal ⟨target, descr, ProposalKind.ChangePolicy []⟩ caller
                  (now + s.vote_period)] },
            s.proposals.length)) ∧
    (∀ (s s' : SputnikDAO) (id now : Nat) (eff : List (String × Nat)) (p : Proposal),
      s.proposals[id]? = some p → p.kind = ProposalKind.ChangePolicy [] →
      s.finalize id now = Except.ok (s', eff) →
      p.vote_status s.policy s.council.card now = some ProposalStatus.Success →
      s'.policy = []) ∧
    (∀ (s : SputnikDAO) (id now : Nat) (p : Proposal),
      s.policy = [] → s.proposals[id]? = some p → p.status.is_finalized = false →
      s.finalize id now = Except.error DaoError.EmptyPolicyPanic) ∧
    (∀ (s : SputnikDAO) (id : Nat) (v : Vote) (caller : String) (now : Nat) (p : Proposal),
      s.policy = [] → caller ∈ s.council → s.proposals[id]? = some p →
      p.status = ProposalStatus.Vote → ¬ p.vote_period_end < now →
      caller ∉ p.votes.map Prod.fst →
      s.vote id v caller now = Except.error DaoError.EmptyPolicyPanic) := by
  refine ⟨?_, ?_, ?_, ?_⟩
  · intro s target descr caller dep now h1 h2
    simp [SputnikDAO.add_proposal, Nat.not_lt.2 h1, Nat.not_le.2 h2, kind_check,
      policy_sorted_check]
  · intro s s' id now eff p hp hkind h hsucc
    obtain ⟨q, st, hq, _, hst, _, _, hcases⟩ := finalize_ok_elim h
    rw [hp] at hq
    cases hq
    rw [hsucc] at hst
    cases hst
    rcases hcases with ⟨_, hs', _⟩ | ⟨hc, _, _⟩ | ⟨hc, _, _⟩
    · subst hs'
      simp [apply_kind_effect, hkind]
    · cases hc
    · cases hc
  · intro s id now p hpol hp hopen
    unfold SputnikDAO.finalize
    rw [hp]
    dsimp only
    rw [if_neg (by simp [hopen]), hpol, vote_status_empty_policy]
  · intro s id v caller now p hpol hmem hp hstat hexp hvoted
    unfold SputnikDAO.vote
    rw [if_neg (not_not_intro hmem), hp]
    dsimp only
    rw [if_neg (not_not_intro hstat), if_neg hexp, if_neg hvoted, hpol,
      vote_status_empty_policy]

def c10State : SputnikDAO :=
  { purpose := "t", bond := 0, vote_period := 1000, grace_period := 10
    policy := []
    council := {"a", "b"}
    proposals := [{ status := ProposalStatus.Vote, proposer := "x", target := "y"
                    description := "d", kind := ProposalKind.NewCouncil
                    vote_period_end := 1000, vote_yes := 0, vote_no := 0
                    votes := [] }] }

def c10Changed : SputnikDAO :=
  { c4State with
    proposals := [{ status := ProposalStatus.Vote, proposer := "x", target := "y"
                    description := "d", kind := ProposalKind.ChangePolicy []
                    vote_period_end := 10, vote_yes := 2, vote_no := 0
                    votes := [("a", Vote.Yes), ("b", Vote.Yes)] }] }

/-- Witness for C10: an empty `ChangePolicy` submission is accepted; its
unanimous `Success` finalization installs the empty policy; with the empty
policy both `finalize` and `vote` hit the indexing panic. -/
theorem empty_policy_change_poisons_store_witness :
    (c9State.add_proposal ⟨"z", "d", ProposalKind.ChangePolicy []⟩ "x" 0 0 =
      Except.ok
        ({ c9State with
            proposals := c9State.proposals ++
              [new_proposal ⟨"z", "d", ProposalKind.ChangePolicy []⟩ "x"
                (0 + c9State.vote_period)] },
          c9State.proposals.length)) ∧
    (exState (c10Changed.finalize 0 0)).policy = [] ∧
    c10State.finalize 0 0 = Except.error DaoError.EmptyPolicyPanic ∧
    c10State.vote 0 Vote.Yes "a" 0 = Except.error DaoError.EmptyPolicyPanic :=
  ⟨empty_policy_change_poisons_store.1 c9State "z" "d" "x" 0 0 (by decide) (by decide),
    empty_policy_change_poisons_store.2.1 c10Changed (exState (c10Changed.finalize 0 0))
      0 0 [("x", 7)]
      { status := ProposalStatus.Vote, proposer := "x", target := "y"
        description := "d", kind := ProposalKind.ChangePolicy []
        vote_period_end := 10, vote_yes := 2, vote_no := 0
        votes := [("a", Vote.Yes), ("b", Vote.Yes)] }
      (by decide) rfl (by decide) (by decide),
    empty_policy_change_poisons_store.2.2.1 c10State 0 0
      { status := ProposalStatus.Vote, proposer := "x", target := "y"
        description := "d", kind := ProposalKind.NewCouncil
        vote_period_end := 1000, vote_yes := 0, vote_no := 0, votes := [] }
      rfl (by decide) (by decide),
    empty_policy_change_poisons_store.2.2.2 c10State 0 Vote.Yes "a" 0
      { status := ProposalStatus.Vote, proposer := "x", target := "y"
        description := "d", kind := ProposalKind.NewCouncil
        vote_period_end := 1000, vote_yes := 0, vote_no := 0, votes := [] }
      rfl (by decide) (by decide) (by decide) (by decide) (by decide)⟩

/-! ## Claim C7: per-proposal tally invariants over reachable store states -/

/-- The per-proposal tally invariant: the voters are pairwise distinct and the
two counters sum to the size of the voters map. -/
def TallyInv (p : Proposal) : Prop :=
  (p.votes.map Prod.fst).Nodup ∧ p.vote_yes + p.vote_no = p.votes.length

/-- Every proposal of the store satisfies `TallyInv`. -/
def TallyOk (s : SputnikDAO) : Prop := ∀ p ∈ s.proposals, TallyInv p

/-- Every proposal of the store satisfies `TallyInv` and all its voters are
current council members. -/
def VotersOk (s : SputnikDAO) : Prop :=
  ∀ p ∈ s.proposals, TallyInv p ∧ ∀ a ∈ p.votes.map Prod.fst, a ∈ s.council

/-- Store states reachable through the contract's operations. -/
inductive Reachable : SputnikDAO → Prop where
  | init (purpose : String) (council : List String) (bond vote_period grace_period : Nat) :
      Reachable (SputnikDAO.new purpose council bond vote_period grace_period)
  | add_step (s : SputnikDAO) (inp : ProposalInput) (caller : String) (dep now : Nat)
      (s' : SputnikDAO) (i : Nat) :
      Reachable s → s.add_proposal inp caller dep now = Except.ok (s', i) →
      Reachable s'
  | vote_step (s : SputnikDAO) (id : Nat) (v : Vote) (caller : String) (now : Nat)
      (s' : SputnikDAO) (eff : List (String × Nat)) :
      Reachable s → s.vote id v caller now = Except.ok (s', eff) → Reachable s'
  | finalize_step (s : SputnikDAO) (id now : Nat) (s' : SputnikDAO)
      (eff : List (String × Nat)) :
      Reachable s → s.finalize id now = Except.ok (s', eff) → Reachable s'

/-- Store states reachable through runs in which no operation ever shrinks the
council (in particular, no `RemoveCouncil` proposal succeeds). -/
inductive ReachableG : SputnikDAO → Prop where
  | init (purpose : String) (council : List String) (bond vote_period grace_period : Nat) :
      ReachableG (SputnikDAO.new purpose council bond vote_period grace_period)
  | add_step (s : SputnikDAO) (inp : ProposalInput) (caller : String) (dep now : Nat)
      (s' : SputnikDAO) (i : Nat) :
      ReachableG s → s.add_proposal inp caller dep now = Except.ok (s', i) →
      ReachableG s'
  | vote_step (s : SputnikDAO) (id : Nat) (v : Vote) (caller : String) (now : Nat)
      (s' : SputnikDAO) (eff : List (String × Nat)) :
      ReachableG s → s.vote id v caller now = Except.ok (s', eff) →
      s.council ⊆ s'.council → ReachableG s'
  | finalize_step (s : SputnikDAO) (id now : Nat) (s' : SputnikDAO)
      (eff : List (String × Nat)) :
      ReachableG s → s.finalize id now = Except.ok (s', eff) →
      s.council ⊆ s'.council → ReachableG s'

/-- Recording a vote of an absent caller preserves the tally invariant. -/
theorem tallyInv_record {p : Proposal} {caller : String} (v : Vote)
    (h : TallyInv p) (habsent : caller ∉ p.votes.map Prod.fst) :
    TallyInv (record_vote p caller v) := by
  obtain ⟨h1, h2⟩ := h
  cases v <;> constructor <;>
    simp [record_vote, List.nodup_append, h1, h2, habsent] <;> omega

/-- `add_proposal` preserves the tally invariant. -/
theorem tallyOk_add {s s' : SputnikDAO} {inp : ProposalInput} {caller : String}
    {dep now i : Nat} (h : TallyOk s)
    (ha : s.add_proposal inp caller dep now = Except.ok (s', i)) : TallyOk s' := by
  obtain ⟨hs', _⟩ := add_ok_elim ha
  subst hs'
  intro q hq
  rcases List.mem_append.1 hq with hq | hq
  · exact h q hq
  · rw [List.mem_singleton.1 hq]
    exact ⟨by simp [new_proposal], by simp [new_proposal]⟩

/-- `finalize` preserves the tally invariant (it only rewrites a status). -/
theorem tallyOk_finalize {s s' : SputnikDAO} {id now : Nat}
    {eff : List (String × Nat)} (h : TallyOk s)
    (hf : s.finalize id now = Except.ok (s', eff)) : TallyOk s' := by
  obtain ⟨p, st, hp, _, _, _, hset, _⟩ := finalize_ok_elim hf
  intro q hq
  rw [hset] at hq
  rcases List.mem_or_eq_of_mem_set hq with hq | rfl
  · exact h q hq
  · exact h p (List.getElem?_mem hp)

/-- `vote` preserves the tally invariant. -/
theorem tallyOk_vote {s s' : SputnikDAO} {id : Nat} {v : Vote} {caller : String}
    {now : Nat} {eff : List (String × Nat)} (h : TallyOk s)
    (hv : s.vote id v caller now = Except.ok (s', eff)) : TallyOk s' := by
  rcases vote_ok_elim hv with ⟨p, _, _, _, _, hfin⟩ |
    ⟨p, st, hp, _, _, _, hvoted, _, hcase⟩
  · exact tallyOk_finalize h hfin
  · have hrec : TallyInv (record_vote p caller v) :=
      tallyInv_record v (h p (List.getElem?_mem hp)) hvoted
    rcases hcase with ⟨_, _, hs'⟩ | ⟨_, hfin⟩
    · subst hs'
      intro q hq
      rcases List.mem_or_eq_of_mem_set hq with hq | rfl
      · exact h q hq
      · exact hrec
    · refine tallyOk_finalize ?_ hfin
      intro q hq
      rcases List.mem_or_eq_of_mem_set hq with hq | rfl
      · exact h q hq
      · exact hrec

/-- Every reachable store satisfies the tally invariant. -/
theorem reachable_tallyOk {s : SputnikDAO} (h : Reachable s) : TallyOk s := by
  induction h with
  | init purpose council bond vote_period grace_period =>
    intro q hq
    simp [SputnikDAO.new] at hq
  | add_step s inp caller dep now s' i _ ha ih => exact tallyOk_add ih ha
  | vote_step s id v caller now s' eff _ hv ih => exact tallyOk_vote ih hv
  | finalize_step s id now s' eff _ hf ih => exact tallyOk_finalize ih hf

/-- `add_proposal` preserves the voters-in-council invariant. -/
theorem votersOk_add {s s' : SputnikDAO} {inp : ProposalInput} {caller : String}
    {dep now i : Nat} (h : VotersOk s)
    (ha : s.add_proposal inp caller dep now = Except.ok (s', i)) : VotersOk s' := by
  obtain ⟨hs', _⟩ := add_ok_elim ha
  subst hs'
  intro q hq
  rcases List.mem_append.1 hq with hq | hq
  · exact h q hq
  · rw [List.mem_singleton.1 hq]
    refine ⟨⟨by simp [new_proposal], by simp [new_proposal]⟩, ?_⟩
    intro a ha
    simp [new_proposal] at ha

/-- `finalize` preserves the voters-in-council invariant when the council does
not shrink. -/
theorem votersOk_finalize {s s' : SputnikDAO} {id now : Nat}
    {eff : List (String × Nat)} (h : VotersOk s)
    (hf : s.finalize id now = Except.ok (s', eff))
    (hsub : s.council ⊆ s'.council) : VotersOk s' := by
  obtain ⟨p, st, hp, _, _, _, hset, _⟩ := finalize_ok_elim hf
  intro q hq
  rw [hset] at hq
  rcases List.mem_or_eq_of_mem_set hq with hq | rfl
  · obtain ⟨h1, h2⟩ := h q hq
    exact ⟨h1, fun a ha => hsub (h2 a ha)⟩
  · obtain ⟨h1, h2⟩ := h p (List.getElem?_mem hp)
    exact ⟨h1, fun a ha => hsub (h2 a ha)⟩

/-- `vote` preserves the voters-in-council invariant when the council does not
shrink: the new voter is a checked council member. -/
theorem votersOk_vote {s s' : SputnikDAO} {id : Nat} {v : Vote} {caller : String}
    {now : Nat} {eff : List (String × Nat)} (h : VotersOk s)
    (hv : s.vote id v caller now = Except.ok (s', eff))
    (hsub : s.council ⊆ s'.council) : VotersOk s' := by
  rcases vote_ok_elim hv with ⟨p, _, _, _, _, hfin⟩ |
    ⟨p, st, hp, hmem, _, _, hvoted, _, hcase⟩
  · exact votersOk_finalize h hfin hsub
  · obtain ⟨hpt, hpc⟩ := h p (List.getElem?_mem hp)
    have hrecT : TallyInv (record_vote p caller v) := tallyInv_record v hpt hvoted
    have hrecC : ∀ a ∈ (record_vote p caller v).votes.map Prod.fst, a ∈ s.council := by
      intro a ha
      cases v <;> simp [record_vote] at ha <;>
        rcases ha with ha | rfl
      · exact hpc a (by simpa using ha)
      · exact hmem
      · exact hpc a (by simpa using ha)
      · exact hmem
    rcases hcase with ⟨_, _, hs'⟩ | ⟨_, hfin⟩
    · subst hs'
      intro q hq
      rcases List.mem_or_eq_of_mem_set hq with hq | rfl
      · obtain ⟨h1, h2⟩ := h q hq
        exact ⟨h1, h2⟩
      · exact ⟨hrecT, hrecC⟩
    · refine votersOk_finalize ?_ hfin hsub
      intro q hq
      rcases List.mem_or_eq_of_mem_set hq with hq | rfl
      · exact h q hq
      · exact ⟨hrecT, hrecC⟩

/-- Every store reachable without council shrinkage satisfies the
voters-in-council invariant. -/
theorem reachableG_votersOk {s : SputnikDAO} (h : ReachableG s) : VotersOk s := by
  induction h with
  | init purpose council bond vote_period grace_period =>
    intro q hq
    simp [SputnikDAO.new] at hq
  | add_step s inp caller dep now s' i _ ha ih => exact votersOk_add ih ha
  | vote_step s id v caller now s' eff _ hv hsub ih => exact votersOk_vote ih hv hsub
  | finalize_step s id now s' eff _ hf hsub ih => exact votersOk_finalize ih hf hsub

/-- The voters-in-council invariant bounds the tally by the council size. -/
theorem votersOk_bound {s : SputnikDAO} (h : VotersOk s) :
    ∀ p ∈ s.proposals, p.vote_yes + p.vote_no ≤ s.council.card := by
  intro p hp
  obtain ⟨⟨hnd, hsum⟩, hsub⟩ := h p hp
  rw [hsum, ← List.length_map p.votes Prod.fst, ← List.toFinset_card_of_nodup hnd]
  apply Finset.card_le_card
  intro a ha
  exact hsub a (List.mem_toFinset.1 ha)

/-- C7 (amended): in every reachable store state each identity appears at most
once in a proposal's voters map and `yes_count + no_count` equals the size of
the voters map — preserved by submit, vote and finalize; the additional bound
`yes_count + no_count ≤ council size` holds in every state reached by a run
in which no operation shrinks the council (the unrestricted bound fails once
a `RemoveCouncil` proposal succeeds, see the counterexample). -/
theorem proposal_tally_invariants :
    (∀ s : SputnikDAO, Reachable s → ∀ p ∈ s.proposals,
      (p.votes.map Prod.fst).Nodup ∧ p.vote_yes + p.vote_no = p.votes.length) ∧
    (∀ s : SputnikDAO, ReachableG s → ∀ p ∈ s.proposals,
      (p.votes.map Prod.fst).Nodup ∧ p.vote_yes + p.vote_no = p.votes.length ∧
      p.vote_yes + p.vote_no ≤ s.council.card) := by
  constructor
  · intro s h p hp
    exact reachable_tallyOk h p hp
  · intro s h p hp
    obtain ⟨⟨h1, h2⟩, _⟩ := reachableG_votersOk h p hp
    exact ⟨h1, h2, votersOk_bound (reachableG_votersOk h) p hp⟩

def t7a : SputnikDAO := SputnikDAO.new "t" ["a", "b"] 0 1000 10

def t7b : SputnikDAO :=
  exStateAdd (t7a.add_proposal ⟨"z", "d", ProposalKind.NewCouncil⟩ "x" 0 0)

def t7c : SputnikDAO := exState (t7b.vote 0 Vote.No "a" 0)

def t7d : SputnikDAO := exState (t7c.vote 0 Vote.Yes "b" 0)

def t7e : SputnikDAO :=
  exStateAdd (t7d.add_proposal ⟨"a", "d", ProposalKind.RemoveCouncil⟩ "x" 0 0)

def t7f : SputnikDAO := exState (t7e.vote 1 Vote.Yes "a" 0)

def t7g : SputnikDAO := exState (t7f.vote 1 Vote.Yes "b" 0)

/-- Counterexample to C7 as stated: a reachable store (two founders fully vote
a proposal to `Fail`, then a unanimous `RemoveCouncil` success shrinks the
council to one member) holds a proposal whose `yes_count + no_count = 2`
exceeds the current council size 1. -/
theorem tally_can_exceed_council_size :
    ∃ s : SputnikDAO, Reachable s ∧
      ∃ p ∈ s.proposals, s.council.card < p.vote_yes + p.vote_no := by
  refine ⟨t7g, ?_, by decide⟩
  have h0 : Reachable t7a := Reachable.init "t" ["a", "b"] 0 1000 10
  have h1 : Reachable t7b :=
    Reachable.add_step t7a ⟨"z", "d", ProposalKind.NewCouncil⟩ "x" 0 0 t7b 0 h0
      (by decide)
  have h2 : Reachable t7c := Reachable.vote_step t7b 0 Vote.No "a" 0 t7c [] h1 (by decide)
  have h3 : Reachable t7d :=
    Reachable.vote_step t7c 0 Vote.Yes "b" 0 t7d [("x", 0)] h2 (by decide)
  have h4 : Reachable t7e :=
    Reachable.add_step t7d ⟨"a", "d", ProposalKind.RemoveCouncil⟩ "x" 0 0 t7e 1 h3
      (by decide)
  have h5 : Reachable t7f := Reachable.vote_step t7e 1 Vote.Yes "a" 0 t7f [] h4 (by decide)
  exact Reachable.vote_step t7f 1 Vote.Yes "b" 0 t7g [("x", 0)] h5 (by decide)

def t7w : SputnikDAO := exState (t7b.vote 0 Vote.Yes "a" 0)

def t7wP : Proposal :=
  t7w.proposals.getD 0 (new_proposal ⟨"", "", ProposalKind.NewCouncil⟩ "" 0)

/-- Witness for the amended C7 at a concrete council-preserving run: after one
recorded vote the stored proposal has distinct voters, matching tally, and a
tally bounded by the council size. -/
theorem proposal_tally_invariants_witness :
    (t7wP.votes.map Prod.fst).Nodup ∧
    t7wP.vote_yes + t7wP.vote_no = t7wP.votes.length ∧
    t7wP.vote_yes + t7wP.vote_no ≤ t7w.council.card := by
  have h0 : ReachableG t7a := ReachableG.init "t" ["a", "b"] 0 1000 10
  have h1 : ReachableG t7b :=
    ReachableG.add_step t7a ⟨"z", "d", ProposalKind.NewCouncil⟩ "x" 0 0 t7b 0 h0
      (by decide)
  have h2 : ReachableG t7w :=
    ReachableG.vote_step t7b 0 Vote.Yes "a" 0 t7w [] h1 (by decide) (by decide)
  exact proposal_tally_invariants.2 t7w h2 t7wP (by decide)
